import Mathlib

/-!
# Verification of the rift-js bridge/codec/detector core

Shallow embedding of the rift-js SDK core in Lean 4, together with theorems
settling the specification claims about it.

Conventions of the embedding:
* JavaScript strings are modelled as `List Char` (`Str`); the JS string
  operations used by the source (`startsWith`, `indexOf`, `substring`,
  `substring(a)`, `split`, `toLowerCase`, `endsWith`) are modelled by
  corresponding functions on char lists.
* JS plain objects used as string-keyed records (`riftParams`, `appParams`,
  the event-handler table) are modelled as association lists with
  insert-or-update semantics, preserving first-insertion key order.  (The
  JS exotic ordering of integer-like keys is not modelled; no claim uses
  integer-like keys.)
* Percent-decoding/encoding of `URLSearchParams` is modelled at the ASCII
  level (multi-byte UTF-8 percent sequences are out of scope of the claims).
-/

/-- JavaScript strings are embedded as lists of characters. -/
abbrev Str := List Char

/-- `p` is a prefix of `s` — model of JS `s.startsWith(p)`. -/
def startsWithL : Str → Str → Bool
  | [], _ => true
  | _, [] => false
  | p :: ps, c :: cs => p = c && startsWithL ps cs

/-- Model of JS `s.endsWith(suffix)`. -/
def endsWithL (sfx s : Str) : Bool := startsWithL sfx.reverse s.reverse

/-- Auxiliary index search carrying the current position. -/
def jsIndexOfAux : Str → Char → Nat → Int
  | [], _, _ => -1
  | x :: xs, c, i => if x = c then (i : Int) else jsIndexOfAux xs c (i + 1)

/-- Model of JS `s.indexOf(c)`: index of the first occurrence, or `-1`. -/
def jsIndexOf (s : Str) (c : Char) : Int := jsIndexOfAux s c 0

/-- ASCII alphanumeric test. -/
def isAlnumChar (c : Char) : Bool :=
  ('a' ≤ c && c ≤ 'z') || ('A' ≤ c && c ≤ 'Z') || ('0' ≤ c && c ≤ '9')

/-- ASCII digit test. -/
def isDigitChar (c : Char) : Bool := '0' ≤ c && c ≤ '9'

/-- Value of one hex digit, if `c` is one. -/
def hexVal (c : Char) : Option Nat :=
  if '0' ≤ c ∧ c ≤ '9' then some (c.toNat - '0'.toNat)
  else if 'a' ≤ c ∧ c ≤ 'f' then some (c.toNat - 'a'.toNat + 10)
  else if 'A' ≤ c ∧ c ≤ 'F' then some (c.toNat - 'A'.toNat + 10)
  else none

/-- Upper-case hex digit of a value `< 16`. -/
def hexDigit (n : Nat) : Char :=
  if n < 10 then Char.ofNat ('0'.toNat + n) else Char.ofNat ('A'.toNat + n - 10)

/-- `application/x-www-form-urlencoded` decoding, as `URLSearchParams` applies
to parsed names and values: `+` becomes a space, a valid `%HH` sequence decodes
to the corresponding character, and a malformed `%` sequence passes through
literally. -/
def formDecode : Str → Str
  | [] => []
  | '+' :: rest => ' ' :: formDecode rest
  | '%' :: h1 :: h2 :: rest =>
    match hexVal h1, hexVal h2 with
    | some a, some b => Char.ofNat (16 * a + b) :: formDecode rest
    | _, _ => '%' :: formDecode (h1 :: h2 :: rest)
  | c :: rest => c :: formDecode rest

/-- `application/x-www-form-urlencoded` encoding of one character, as the
`URLSearchParams` serializer applies it: ASCII alphanumerics and `*-._` stay,
space becomes `+`, anything else is percent-encoded. -/
def formEncodeChar (c : Char) : Str :=
  if isAlnumChar c || c = '*' || c = '-' || c = '.' || c = '_' then [c]
  else if c = ' ' then ['+']
  else ['%', hexDigit (c.toNat / 16 % 16), hexDigit (c.toNat % 16)]

/-- Form-encoding of a whole string. -/
def formEncode (s : Str) : Str := s.flatMap formEncodeChar

/-- Split on `&`, keeping empty segments (they are filtered by the caller). -/
def splitOnAmpAux : Str → Str → List Str
  | [], acc => [acc.reverse]
  | c :: cs, acc =>
    if c = '&' then acc.reverse :: splitOnAmpAux cs [] else splitOnAmpAux cs (c :: acc)

/-- Split a query string on `&`. -/
def splitOnAmp (s : Str) : List Str := splitOnAmpAux s []

/-- Split one `name=value` segment at its first `=` (no `=` means empty value),
then form-decode both sides — the `URLSearchParams` parsing rule. -/
def parsePair (seg : Str) : Str × Str :=
  let i := jsIndexOf seg '='
  if i = -1 then (formDecode seg, [])
  else (formDecode (seg.take i.toNat), formDecode (seg.drop (i.toNat + 1)))

/-- Model of `new URLSearchParams(qs)` followed by in-order `forEach`:
the ordered list of decoded (name, value) pairs; empty segments are skipped. -/
def parseQueryPairs (qs : Str) : List (Str × Str) :=
  (splitOnAmp qs).filterMap (fun seg => if seg = [] then none else some (parsePair seg))

/-- JS record assignment `r[k] = v`: update in place if the key exists,
otherwise append — preserving first-insertion key order. -/
def recordSet (r : List (Str × Str)) (k v : Str) : List (Str × Str) :=
  if r.any (fun p => p.1 = k) then r.map (fun p => if p.1 = k then (k, v) else p)
  else r ++ [(k, v)]

/-- The `searchParams.forEach` body of `parseRiftUri` (src/utils:108-115):
keys starting with `rift-` are stripped of the prefix and collected into
`riftParams`; all others go to `appParams`. -/
def splitRiftParams (pairs : List (Str × Str)) : List (Str × Str) × List (Str × Str) :=
  pairs.foldl
    (fun acc kv =>
      if startsWithL ("rift-".toList) kv.1 then (recordSet acc.1 (kv.1.drop 5) kv.2, acc.2)
      else (acc.1, recordSet acc.2 kv.1 kv.2))
    ([], [])

/-- Result record of `parseRiftUri`. -/
structure ParsedRiftUri where
  host : Str
  path : Str
  query : Str
  riftParams : List (Str × Str)
  appParams : List (Str × Str)
  deriving DecidableEq, Repr

/-- Embedding of `parseRiftUri` (src/utils.ts).  Mirrors the source: strip the
`rift://` scheme; `host` is the remainder up to the first `/` (the whole
remainder when there is no `/`); when there is no `/` the path is empty and the
query starts at the first `?` found in the remainder (the `host` field is not
trimmed); otherwise path/query split the remainder at the first `?`; query
parameters are decoded by `URLSearchParams` and partitioned on the `rift-`
key namespace. -/
def parseRiftUri (uri : Str) : Option ParsedRiftUri :=
  if startsWithL ("rift://".toList) uri = false then none
  else
    let withoutPre := uri.drop 7
    let hostEnd := jsIndexOf withoutPre '/'
    let host := if hostEnd = -1 then withoutPre else withoutPre.take hostEnd.toNat
    let pq : Str × Str :=
      if hostEnd = -1 then
        let queryIndex := jsIndexOf host '?'
        ([], if queryIndex = -1 then [] else host.drop queryIndex.toNat)
      else
        let pathAndQuery := withoutPre.drop hostEnd.toNat
        let queryStart := jsIndexOf pathAndQuery '?'
        if queryStart = -1 then (pathAndQuery, [])
        else (pathAndQuery.take queryStart.toNat, pathAndQuery.drop queryStart.toNat)
    let params :=
      if 1 < pq.2.length then splitRiftParams (parseQueryPairs (pq.2.drop 1)) else ([], [])
    some { host := host, path := pq.1, query := pq.2,
           riftParams := params.1, appParams := params.2 }

/-- Embedding of the `RiftConfig` interface (src/config.ts). -/
structure RiftConfig where
  useHttpForLocalDevelopment : Bool
  localHosts : List Str
  deriving DecidableEq, Repr

/-- `defaultConfig` of src/config.ts. -/
def defaultConfig : RiftConfig :=
  { useHttpForLocalDevelopment := false
    localHosts := ["localhost".toList, "127.0.0.1".toList] }

/-- A `Partial<RiftConfig>` argument: each field either supplied or absent. -/
structure PartialRiftConfig where
  useHttpForLocalDevelopment : Option Bool := none
  localHosts : Option (List Str) := none
  deriving DecidableEq, Repr

/-- Embedding of `setConfig` (src/config.ts:38-43): the spread
`{...currentConfig, ...config}` — fields present in the partial argument
override, absent fields keep the current value. -/
def setConfig (config : PartialRiftConfig) (currentConfig : RiftConfig) : RiftConfig :=
  { useHttpForLocalDevelopment :=
      config.useHttpForLocalDevelopment.getD currentConfig.useHttpForLocalDevelopment
    localHosts := config.localHosts.getD currentConfig.localHosts }

/-- Embedding of `getConfig` (src/config.ts:30-32): returns a copy
`{...currentConfig}` of the current configuration. -/
def getConfig (currentConfig : RiftConfig) : RiftConfig :=
  { useHttpForLocalDevelopment := currentConfig.useHttpForLocalDevelopment
    localHosts := currentConfig.localHosts }

/-- Embedding of `isLocalHost` (src/config.ts:48-64). -/
def isLocalHost (cfg : RiftConfig) (host : Str) : Bool :=
  if host = [] then false
  else
    let lowerHost := host.map Char.toLower
    if cfg.localHosts.contains lowerHost then true
    else if endsWithL (".local".toList) lowerHost then true
    else false

/-- Embedding of `getProtocolPrefix` (src/wallet/helpers.ts:12-16): `http://`
for local-development hosts when so configured, `https://` otherwise.  The
prefix constants are inlined (`RIFT_HTTP_PREFIX` is not present in the captured
constants file; its value `http://` follows from the spec's insecure-transport
wording and `RIFT_HTTPS_PREFIX = https://` from src/constants). -/
def getProtocolPrefix (cfg : RiftConfig) (host : Str) : Str :=
  if cfg.useHttpForLocalDevelopment && isLocalHost cfg host then "http://".toList
  else "https://".toList

/-- `URLSearchParams` serialization of an ordered pair list: form-encoded
`name=value` segments joined by `&`. -/
def encodePairs : List (Str × Str) → Str
  | [] => []
  | [kv] => formEncode kv.1 ++ '=' :: formEncode kv.2
  | kv :: rest => (formEncode kv.1 ++ '=' :: formEncode kv.2) ++ '&' :: encodePairs rest

/-- Embedding of `convertRiftUrl` (src/wallet/detector.ts:21-47): non-`rift://`
inputs pass through; otherwise parse, pick the protocol by host classification,
and emit `proto + host + path` plus the re-encoded application parameters only
(when non-empty).  Namespaced `rift-` parameters are never re-emitted. -/
def convertRiftUrl (cfg : RiftConfig) (url : Str) : Str :=
  if startsWithL ("rift://".toList) url = false then url
  else
    match parseRiftUri url with
    | none => url
    | some parsed =>
      let pre := getProtocolPrefix cfg parsed.host
      let cleanUrl := pre ++ parsed.host ++ parsed.path
      if 0 < parsed.appParams.length then cleanUrl ++ '?' :: encodePairs parsed.appParams
      else cleanUrl

example :
    parseRiftUri ("rift://host/path?rift-height=tall&x=1".toList) =
      some { host := "host".toList, path := "/path".toList,
             query := "?rift-height=tall&x=1".toList,
             riftParams := [("height".toList, "tall".toList)],
             appParams := [("x".toList, "1".toList)] } := by decide

example :
    convertRiftUrl defaultConfig ("rift://host/path?rift-height=tall&x=1".toList) =
      "https://host/path?x=1".toList := by decide

example :
    (parseRiftUri ("rift://example.com?x=1".toList)).map ParsedRiftUri.host =
      some ("example.com?x=1".toList) := by decide

/-!
## Event Hub (src/events.ts)

Generic model of the `EventEmitter` class.  A callback takes the published
payload and the ambient single-threaded state and returns the updated state
together with an optional raised error; `emit` mirrors the source's
`forEach` + `try`/`catch`: every callback of the channel runs in registration
order, a raised error is swallowed (logged) and iteration continues, and
`emit` itself always returns normally (it is a total function into the state).
-/

/-- A subscriber callback: reads the payload, transforms the ambient state,
optionally raises an error (which `emit` catches). -/
abbrev EventCallback (α σ ε : Type) : Type := α → σ → σ × Option ε

/-- The handler table of the emitter: channel name to ordered callback list. -/
abbrev EventHandlers (α σ ε : Type) : Type := List (String × List (EventCallback α σ ε))

/-- Table lookup, modelling `this.handlers[event]` (absent key = `none`). -/
def lookupChannel (h : EventHandlers α σ ε) (ch : String) : Option (List (EventCallback α σ ε)) :=
  match h.find? (fun p => p.1 = ch) with
  | some p => some p.2
  | none => none

/-- Embedding of `EventEmitter.on` (src/events.ts:15-21): create the channel's
list if absent, then push the callback at the end. -/
def emitterOn (h : EventHandlers α σ ε) (ch : String) (cb : EventCallback α σ ε) :
    EventHandlers α σ ε :=
  match lookupChannel h ch with
  | none => h ++ [(ch, [cb])]
  | some cbs => h.map (fun p => if p.1 = ch then (ch, cbs ++ [cb]) else p)

/-- Embedding of `EventEmitter.emit` (src/events.ts:41-53): no-op when the
channel has no entry; otherwise run every registered callback in order on the
published data, discarding (catching) any error a callback raises. -/
def emitterEmit (h : EventHandlers α σ ε) (ch : String) (data : α) (s : σ) : σ :=
  match lookupChannel h ch with
  | none => s
  | some cbs => cbs.foldl (fun acc cb => (cb data acc).1) s

/-- A diagnostic callback used to observe `emit`: it appends its tag and the
payload to a log state and then (when `raises` is set) raises an error, so it
models both a well-behaved subscriber and one that throws after having run. -/
def logThen (tag : Nat) (raises : Bool) : EventCallback α (List (Nat × α)) Unit :=
  fun data s => (s ++ [(tag, data)], if raises then some () else none)

/-- Registry obtained by subscribing `logThen`-callbacks for each spec in
order on one channel. -/
def logRegistry (ch : String) (specs : List (Nat × Bool)) : EventHandlers α (List (Nat × α)) Unit :=
  specs.foldl (fun h sp => emitterOn h ch (logThen sp.1 sp.2)) []

/-!
## Bridge (src/bridge.ts)

Deep embedding of the `RiftBridge` protocol state machine.  The handlers the
bridge registers on its own emitter are closures; their identity (JS reference
equality, used by `off`'s filter) is modelled by an inductive `Handler` type
tagged with the per-request counter value current when the closure was
created, and their behaviour by the interpreter `runHandlerWith` below, each
branch mirroring the corresponding closure body in src/bridge.ts.

Nested `emit` calls made from inside a handler are interpreted with a fuel
parameter that bounds the nesting depth (the scenarios of the claims nest at
most two deep; the fuel used below is far above that), keeping the
interpreter total.

The embedding models the embedded, document-complete execution path: the
`document.readyState` deferral of `connect()` and the absent-parent retry
branch of `sendMessage` are environment interactions outside the state
machine proper.
-/

/-- Identity of a handler closure registered by the bridge, tagged with the
request/connect counter value at creation time. -/
inductive Handler where
  | context (cid : Nat)
  | queryResult (rid : Nat)
  | queryError (rid : Nat)
  | mutateResult (rid : Nat)
  | mutateError (rid : Nat)
  deriving DecidableEq, Repr

/-- Payload values travelling through the bridge's emitter. -/
inductive Payload where
  | null
  | contextMsg (address network : String)
  | mutateResultMsg (status txId : String)
  | queryResultMsg (result : String)
  | errorMsg (code message : String)
  | readyData (address network : Option String)
  | txSuccess (txId : Option String)
  | txError (txId : Option String) (message : String)
  | errObj (code message : Option String)
  deriving DecidableEq, Repr

/-- JS property read `p.address` (undefined on other payload shapes). -/
def Payload.addressField : Payload → Option String
  | .contextMsg a _ => some a
  | _ => none

/-- JS property read `p.network`. -/
def Payload.networkField : Payload → Option String
  | .contextMsg _ n => some n
  | _ => none

/-- JS property read `p.status`. -/
def Payload.statusField : Payload → Option String
  | .mutateResultMsg s _ => some s
  | _ => none

/-- JS property read `p.txId`. -/
def Payload.txIdField : Payload → Option String
  | .mutateResultMsg _ t => some t
  | _ => none

/-- JS property read `p.result`. -/
def Payload.resultField : Payload → Option String
  | .queryResultMsg r => some r
  | _ => none

/-- JS property read `p.code`. -/
def Payload.codeField : Payload → Option String
  | .errorMsg c _ => some c
  | _ => none

/-- JS property read `p.message`. -/
def Payload.messageField : Payload → Option String
  | .errorMsg _ m => some m
  | _ => none

/-- Kind of a scheduled timeout, deciding which timeout closure fires. -/
inductive TimerKind where
  | connectT
  | queryT
  | mutateT
  deriving DecidableEq, Repr

/-- Body of an outbound message (the generated `id` stamp is tracked
separately by `sendMessage`). -/
inductive MsgBody where
  | handshake
  | intent (action : String) (cadence : String) (args : List String) (network : Option String)
  deriving DecidableEq, Repr

/-- How a caller-facing promise was settled. -/
inductive Settlement where
  | resolvedConnect
  | resolvedQuery (result : Option String)
  | resolvedMutate (txId : Option String)
  | rejected (message : Option String)
  deriving DecidableEq, Repr

/-- Caller argument of `query`/`mutate`.  The TS type carries `cadence` and
`args`; the optional `network` field models a caller that smuggles a network
value into the spread — the claims quantify over it. -/
structure CallOptions where
  cadence : String
  args : List String
  network : Option String := none
  deriving DecidableEq, Repr

/-- Complete observable state of one `RiftBridge` instance, together with the
traces (sent messages, emitted events, promise settlements) the claims are
about. -/
structure BridgeState where
  address : Option String := none
  network : Option String := none
  connected : Bool := false
  handlers : List (String × List Handler) := []
  timers : List (Nat × TimerKind) := []
  nextId : Nat := 0
  nextMsgId : Nat := 0
  sent : List (MsgBody × Nat) := []
  emitted : List (String × Payload) := []
  settled : List (Nat × Settlement) := []
  deriving DecidableEq, Repr

/-- Lookup of a channel's handler array in the bridge's emitter table. -/
def lookupH (h : List (String × List Handler)) (ch : String) : Option (List Handler) :=
  match h.find? (fun p => p.1 = ch) with
  | some p => some p.2
  | none => none

/-- `EventEmitter.on` specialised to the bridge's deep handlers. -/
def onH (ch : String) (hd : Handler) (st : BridgeState) : BridgeState :=
  { st with handlers :=
      match lookupH st.handlers ch with
      | none => st.handlers ++ [(ch, [hd])]
      | some hs => st.handlers.map (fun p => if p.1 = ch then (ch, hs ++ [hd]) else p) }

/-- `EventEmitter.off` specialised to the bridge's deep handlers: filter the
channel's array by identity; no-op when the channel is absent. -/
def offH (ch : String) (hd : Handler) (st : BridgeState) : BridgeState :=
  { st with handlers :=
      match lookupH st.handlers ch with
      | none => st.handlers
      | some hs => st.handlers.map (fun p => if p.1 = ch then (ch, hs.filter (· ≠ hd)) else p) }

/-- `clearTimeout` on the timer created for request/connect `i`. -/
def clearTimer (i : Nat) (st : BridgeState) : BridgeState :=
  { st with timers := st.timers.filter (fun t => t.1 ≠ i) }

/-- Record a promise settlement (invocation of a `resolve`/`reject`
continuation). -/
def settle (i : Nat) (s : Settlement) (st : BridgeState) : BridgeState :=
  { st with settled := st.settled ++ [(i, s)] }

/-- Behaviour of one registered handler closure on a published payload.
`emit` is the (fuelled) nested-emit interpreter passed in by `emitB`.
Each branch mirrors the corresponding closure in src/bridge.ts, statement by
statement. -/
def runHandlerWith (emit : String → Payload → BridgeState → BridgeState)
    (hd : Handler) (p : Payload) (st : BridgeState) : BridgeState :=
  match hd with
  | .context cid =>
    -- contextHandler of connect() (src/bridge.ts:62-70)
    let st := clearTimer cid st
    let st := { st with address := p.addressField, network := p.networkField, connected := true }
    let st := emit "ready" (.readyData st.address st.network) st
    let st := offH "rift:context" (.context cid) st
    settle cid .resolvedConnect st
  | .queryResult rid =>
    -- resultHandler of query() (src/bridge.ts:123-127)
    let st := clearTimer rid st
    let st := offH "rift:queryResult" (.queryResult rid) st
    settle rid (.resolvedQuery p.resultField) st
  | .queryError rid =>
    -- errorHandler of query() (src/bridge.ts:129-134)
    let st := clearTimer rid st
    let st := offH "rift:error" (.queryError rid) st
    let st := emit "error" (.errObj p.codeField p.messageField) st
    settle rid (.rejected p.messageField) st
  | .mutateResult rid =>
    -- resultHandler of mutate() (src/bridge.ts:174-185)
    let st := clearTimer rid st
    let st := offH "rift:mutateResult" (.mutateResult rid) st
    if p.statusField = some "success" then
      let st := emit "tx:success" (.txSuccess p.txIdField) st
      settle rid (.resolvedMutate p.txIdField) st
    else
      let st := emit "tx:error" (.txError p.txIdField "Transaction failed") st
      settle rid (.rejected (some "Transaction failed")) st
  | .mutateError rid =>
    -- errorHandler of mutate() (src/bridge.ts:187-192)
    let st := clearTimer rid st
    let st := offH "rift:error" (.mutateError rid) st
    let st := emit "error" (.errObj p.codeField p.messageField) st
    settle rid (.rejected p.messageField) st

/-- Fuelled `EventEmitter.emit` for the bridge: log the emission, look the
channel up, and run the snapshot of its handler array in order (the source
iterates with `forEach` over the array that `off` replaces rather than
mutates, hence the snapshot).  Nested emits performed by a handler run with
one unit of fuel less. -/
def emitB : Nat → String → Payload → BridgeState → BridgeState
  | 0, ch, p, st => { st with emitted := st.emitted ++ [(ch, p)] }
  | fuel + 1, ch, p, st =>
    let st := { st with emitted := st.emitted ++ [(ch, p)] }
    match lookupH st.handlers ch with
    | none => st
    | some hs => hs.foldl (fun acc hd => runHandlerWith (emitB fuel) hd p acc) st

/-- Fuel used by the top-level entry points; the claims' scenarios nest emits
at most two deep. -/
def emitFuel : Nat := 8

/-- Embedding of `sendMessage` (src/bridge.ts:202-232) on the embedded path:
stamp the body with a fresh generated id and post it to the parent. -/
def sendMessage (m : MsgBody) (st : BridgeState) : BridgeState :=
  { st with sent := st.sent ++ [(m, st.nextMsgId)], nextMsgId := st.nextMsgId + 1 }

/-- Embedding of one `connect()` call up to its suspension (src/bridge.ts:
31-74, document-complete path): return immediately when already connected,
otherwise send the handshake, then schedule the connection timeout and
subscribe the context handler. -/
def connectStep (st : BridgeState) : BridgeState :=
  if st.connected then st
  else
    let st := sendMessage .handshake st
    let cid := st.nextId
    let st := { st with nextId := cid + 1, timers := st.timers ++ [(cid, .connectT)] }
    onH "rift:context" (.context cid) st

/-- Embedding of `query()` from its send onward (src/bridge.ts:102-138,
already-connected path): send the intent whose payload is the caller options
spread plus `network: this.network`, then schedule the timeout and subscribe
the result and error handlers (in that order).  Returns the request tag. -/
def queryStep (opts : CallOptions) (st : BridgeState) : BridgeState × Nat :=
  let st := sendMessage (.intent "query" opts.cadence opts.args st.network) st
  let rid := st.nextId
  let st := { st with nextId := rid + 1, timers := st.timers ++ [(rid, .queryT)] }
  let st := onH "rift:queryResult" (.queryResult rid) st
  let st := onH "rift:error" (.queryError rid) st
  (st, rid)

/-- Embedding of `mutate()` from its send onward (src/bridge.ts:152-196,
already-connected path): send the intent (payload spread plus
`network: this.network`), emit `tx:submitted`, then schedule the timeout and
subscribe the result and error handlers. -/
def mutateStep (opts : CallOptions) (st : BridgeState) : BridgeState × Nat :=
  let st := sendMessage (.intent "mutate" opts.cadence opts.args st.network) st
  let st := emitB emitFuel "tx:submitted" .null st
  let rid := st.nextId
  let st := { st with nextId := rid + 1, timers := st.timers ++ [(rid, .mutateT)] }
  let st := onH "rift:mutateResult" (.mutateResult rid) st
  let st := onH "rift:error" (.mutateError rid) st
  (st, rid)

/-- Inbound `rift:`-namespaced messages (non-namespaced traffic is dropped by
the listener's guard before reaching the dispatch switch). -/
inductive Inbound where
  | context (address network : String)
  | mutateResult (status txId : String)
  | queryResult (result : String)
  | error (code message : String)
  | other (type : String)
  deriving DecidableEq, Repr

/-- Embedding of the inbound dispatch switch (src/bridge.ts:240-267) together
with `handleContextMessage` (src/bridge.ts:281-286): a context message records
address/network, marks the bridge connected and republishes on
`rift:context`; result and error messages are republished verbatim on the
channel named after their type; an unrecognized namespaced type is logged and
dropped. -/
def handleInbound (data : Inbound) (st : BridgeState) : BridgeState :=
  match data with
  | .context a n =>
    let st := { st with address := some a, network := some n, connected := true }
    emitB emitFuel "rift:context" (.contextMsg a n) st
  | .mutateResult s t => emitB emitFuel "rift:mutateResult" (.mutateResultMsg s t) st
  | .queryResult r => emitB emitFuel "rift:queryResult" (.queryResultMsg r) st
  | .error c m => emitB emitFuel "rift:error" (.errorMsg c m) st
  | .other _ => st

/-- Firing of the scheduled timeout `i` (only meaningful while the timer is
still pending): the timer is consumed, and the corresponding timeout closure
from src/bridge.ts runs — `connect`'s rejects (line 58-60); `query`'s emits an
`error` event with the `timeout` code and rejects (lines 114-121); `mutate`'s
likewise (lines 165-172).  None of the timeout closures unsubscribes any
handler. -/
def fireTimeout (i : Nat) (st : BridgeState) : BridgeState :=
  match (st.timers.find? (fun t => t.1 = i)) with
  | none => st
  | some t =>
    let st := { st with timers := st.timers.filter (fun t' => t'.1 ≠ i) }
    match t.2 with
    | .connectT => settle i (.rejected (some "Connection timed out")) st
    | .queryT =>
      let st := emitB emitFuel "error" (.errObj (some "timeout") (some "Script execution timed out")) st
      settle i (.rejected (some "Script execution timed out")) st
    | .mutateT =>
      let st := emitB emitFuel "error" (.errObj (some "timeout") (some "Transaction timed out")) st
      settle i (.rejected (some "Transaction timed out")) st

/-- The pristine bridge state right after construction. -/
def freshState : BridgeState := {}

/-- A cleanly connected bridge (post-handshake, no pending requests). -/
def connState (a n : String) : BridgeState :=
  { address := some a, network := some n, connected := true }

/-- Handshake counter over the sent-message trace. -/
def countHandshakes (sent : List (MsgBody × Nat)) : Nat :=
  (sent.filter (fun m => m.1 = MsgBody.handshake)).length

example :
    (connectStep (connectStep freshState)).sent =
      [(.handshake, 0), (.handshake, 1)] := by decide

example :
    countHandshakes (connectStep (connectStep freshState)).sent = 2 := by decide

example :
    (handleInbound (.context "0xabc" "flow-testnet") (connectStep (connectStep freshState))).settled =
      [(0, .resolvedConnect), (1, .resolvedConnect)] := by decide

/-!
## Detector (src/wallet/detector.ts)

Embedding of the `RIFT_URI_REGEX` matcher and of the scanning loops.  The
pattern is
`rift:\/\/[a-zA-Z0-9][-a-zA-Z0-9.]*[a-zA-Z0-9](?::\d+)?(?:\/[C]*)?(?:\?[C]*)?`
with `C = [-a-zA-Z0-9()@:%_\+.~#?&//=]`, matched globally with the JS
backtracking semantics: the greedy host middle backtracks until its final
character is alphanumeric, and since every later group is optional the match
succeeds with the longest such host; trailing `-`/`.` characters cannot start
the optional port/path/query groups, so they are left unconsumed.

The scan loops capture the node's text into a local string before matching,
so the exec sequence is a pure function of that snapshot; the embedding
precomputes it.  (A callback that re-entrantly ran the scanner would share the
module-level regex `lastIndex`; the model, like the spec, treats callbacks as
external non-re-entrant observers.)
-/

/-- The host-interior character class `[-a-zA-Z0-9.]`. -/
def isHostMidChar (c : Char) : Bool := isAlnumChar c || c = '-' || c = '.'

/-- The path/query character class `[-a-zA-Z0-9()@:%_\+.~#?&//=]`. -/
def isTailChar (c : Char) : Bool :=
  isAlnumChar c || c = '-' || c = '(' || c = ')' || c = '@' || c = ':' || c = '%' ||
  c = '_' || c = '+' || c = '.' || c = '~' || c = '#' || c = '?' || c = '&' || c = '/' || c = '='

/-- Greedy-with-backtracking resolution of `[-a-zA-Z0-9.]*[a-zA-Z0-9]` against
the maximal host-interior run: the longest prefix of the run whose final
character is alphanumeric, or `none` when the run contains no alphanumeric
character (the pattern then fails — a host needs at least two characters). -/
def hostTail (run : Str) : Option Str :=
  let t := (run.reverse.dropWhile (fun c => !isAlnumChar c)).reverse
  if t = [] then none else some t

/-- The optional port group `(?::\d+)?`: consumed only when a `:` followed by
at least one digit is present. -/
def matchPort (cs : Str) : Str × Str :=
  match cs with
  | ':' :: rest =>
    let ds := rest.takeWhile isDigitChar
    if ds = [] then ([], ':' :: rest) else (':' :: ds, rest.drop ds.length)
  | _ => ([], cs)

/-- An optional group `(?:lead C*)?` for the path (`lead = '/'`) and query
(`lead = '?'`) parts: consumed only when the lead character is present, then
greedily takes the maximal `C`-class run. -/
def matchLead (lead : Char) (cs : Str) : Str × Str :=
  match cs with
  | c :: rest =>
    if c = lead then
      let run := rest.takeWhile isTailChar
      (c :: run, rest.drop run.length)
    else ([], c :: rest)
  | [] => ([], [])

/-- Attempt of `RIFT_URI_REGEX` anchored at the head of `cs`, returning the
matched string. -/
def matchAt (cs : Str) : Option Str :=
  if startsWithL ("rift://".toList) cs = false then none
  else
    match cs.drop 7 with
    | [] => none
    | c0 :: rest1 =>
      if isAlnumChar c0 = false then none
      else
        let run := rest1.takeWhile isHostMidChar
        match hostTail run with
        | none => none
        | some tl =>
          let cursor := run.drop tl.length ++ rest1.drop run.length
          let pc := matchPort cursor
          let pathSeg := matchLead '/' pc.2
          let querySeg := matchLead '?' pathSeg.2
          some ("rift://".toList ++ c0 :: tl ++ pc.1 ++ pathSeg.1 ++ querySeg.1)

/-- The global `exec` loop from position `pos`: try each position in turn;
on a match, record (match, start, end) and continue at the match end.  The
fuel only bounds the loop (every step advances the position, and matches are
at least 9 characters long, so `text.length + 1` units never run out). -/
def scanFrom (text : Str) : Nat → Nat → List (Str × Nat × Nat)
  | _, 0 => []
  | pos, fuel + 1 =>
    if text.length ≤ pos then []
    else
      match matchAt (text.drop pos) with
      | some m => (m, pos, pos + m.length) :: scanFrom text (pos + m.length) fuel
      | none => scanFrom text (pos + 1) fuel

/-- All matches of `RIFT_URI_REGEX` in a text, in left-to-right order, with
start and end offsets. -/
def execAll (text : Str) : List (Str × Nat × Nat) := scanFrom text 0 (text.length + 1)

/-- Observable actions of a scan of one text node, in execution order:
`found` marks the regex `exec` returning an occurrence, `callback` marks an
invocation of the configured `onRiftUriFound` callback for it. -/
inductive ScanAction where
  | found (m : Str) (s e : Nat)
  | callback (m : Str) (s e : Nat)
  deriving DecidableEq, Repr

/-- The de-duplication key `` `${riftUri}:${startIndex}` `` of
src/wallet/detector.ts:204. -/
def uriKey (m : Str) (s : Nat) : Str := m ++ ':' :: (Nat.repr s).toList

/-- The per-match body of the `scanTextNodes` exec loop
(src/wallet/detector.ts:198-221): each exec return is a `found` action; the
ledger is consulted, and only for a fresh key is the key recorded and the
callback invoked — immediately, before the next exec step. -/
def nodeLoop : List (Str × Nat × Nat) → List Str → List ScanAction × List Str
  | [], pr => ([], pr)
  | (m, s, e) :: rest, pr =>
    let key := uriKey m s
    if pr.contains key then
      let r := nodeLoop rest pr
      (ScanAction.found m s e :: r.1, r.2)
    else
      let r := nodeLoop rest (pr ++ [key])
      (ScanAction.found m s e :: ScanAction.callback m s e :: r.1, r.2)

/-- Processing of one accepted text node by `scanTextNodes`
(src/wallet/detector.ts:181-222), given the node's processed-URI ledger:
returns the action trace and the updated ledger. -/
def scanTextNodeStep (text : Str) (pr : List Str) : List ScanAction × List Str :=
  nodeLoop (execAll text) pr

/-- The `scanNode` exec loop (src/wallet/detector.ts:252-265): no ledger; per
match, the callback is invoked and the match text pushed onto the result. -/
def scanNodeLoop : List (Str × Nat × Nat) → List Str × List ScanAction
  | [] => ([], [])
  | (m, s, e) :: rest =>
    let r := scanNodeLoop rest
    (m :: r.1, ScanAction.found m s e :: ScanAction.callback m s e :: r.2)

/-- Embedding of `scanNode` (src/wallet/detector.ts:238-268): when no
occurrence callback is configured or the node's text content is falsy
(absent or empty), return the empty array without scanning; otherwise run the
exec loop, invoking the callback once per match and collecting the matched
identifier strings. -/
def scanNodeModel (hasCallback : Bool) (textContent : Option Str) : List Str × List ScanAction :=
  if hasCallback = false ∨ textContent = none ∨ textContent = some [] then ([], [])
  else scanNodeLoop (execAll (textContent.getD []))

/-- No `found` action occurs in the trace. -/
def noFound : List ScanAction → Bool
  | [] => true
  | ScanAction.found _ _ _ :: _ => false
  | ScanAction.callback _ _ _ :: rest => noFound rest

/-- The trace shape asserted by the collect-then-report claim: every `found`
action precedes every `callback` action. -/
def collectThenReport : List ScanAction → Bool
  | [] => true
  | ScanAction.found _ _ _ :: rest => collectThenReport rest
  | ScanAction.callback _ _ _ :: rest => noFound rest

example : execAll ("rift://a.b".toList) = [("rift://a.b".toList, 0, 10)] := by decide

example :
    execAll ("see rift://a.b rift://c.d ok".toList) =
      [("rift://a.b".toList, 4, 14), ("rift://c.d".toList, 15, 25)] := by decide

example :
    (scanTextNodeStep ("rift://a.b rift://c.d".toList) []).1 =
      [.found ("rift://a.b".toList) 0 10, .callback ("rift://a.b".toList) 0 10,
       .found ("rift://c.d".toList) 11 21, .callback ("rift://c.d".toList) 11 21] := by decide

example :
    collectThenReport (scanTextNodeStep ("rift://a.b rift://c.d".toList) []).1 = false := by
  decide

example : execAll ("rift://example.com:8080/p?x=1 y".toList) =
    [("rift://example.com:8080/p?x=1".toList, 0, 29)] := by decide

/-!
## Helper lemmas
-/

/-- Registering callbacks one by one on a single-channel table appends them in
order. -/
lemma logRegistry_foldl_single {α : Type} (ch : String)
    (cbs : List (EventCallback α (List (Nat × α)) Unit)) (specs : List (Nat × Bool)) :
    specs.foldl (fun h sp => emitterOn h ch (logThen sp.1 sp.2)) [(ch, cbs)] =
      [(ch, cbs ++ specs.map (fun sp => logThen sp.1 sp.2))] := by
  induction specs generalizing cbs with
  | nil => simp
  | cons sp rest ih =>
    simp only [List.foldl_cons, List.map_cons]
    rw [show emitterOn [(ch, cbs)] ch (logThen sp.1 sp.2) =
          [(ch, cbs ++ [logThen sp.1 sp.2])] by
        simp [emitterOn, lookupChannel, List.find?]]
    rw [ih]
    simp

/-- Folding the logging callbacks over the state appends one log entry per
callback, in order, regardless of the raise flags. -/
lemma logThen_foldl {α : Type} (data : α) (specs : List (Nat × Bool)) (s : List (Nat × α)) :
    (specs.map (fun sp => logThen sp.1 sp.2)).foldl (fun acc cb => (cb data acc).1) s =
      s ++ specs.map (fun sp => (sp.1, data)) := by
  induction specs generalizing s with
  | nil => simp
  | cons sp rest ih =>
    simp only [List.map_cons, List.foldl_cons]
    rw [show (logThen sp.1 sp.2 data s).1 = s ++ [(sp.1, data)] from rfl, ih]
    simp

/-- `scanNodeLoop` reports the match texts in order and produces the
found/callback pair trace. -/
lemma scanNodeLoop_spec (ms : List (Str × Nat × Nat)) :
    scanNodeLoop ms =
      (ms.map (fun t => t.1),
       ms.flatMap (fun t => [ScanAction.found t.1 t.2.1 t.2.2, ScanAction.callback t.1 t.2.1 t.2.2])) := by
  induction ms with
  | nil => rfl
  | cons m rest ih =>
    obtain ⟨m1, m2, m3⟩ := m
    simp [scanNodeLoop, ih]

/-- A string started with itself followed by anything. -/
lemma startsWithL_append (p t : Str) : startsWithL p (p ++ t) = true := by
  induction p with
  | nil => simp [startsWithL]
  | cons a ps ih => simp [startsWithL, ih]

/-- `indexOf` misses a character that does not occur. -/
lemma jsIndexOfAux_not_mem (s : Str) (c : Char) : ∀ i, c ∉ s → jsIndexOfAux s c i = -1 := by
  induction s with
  | nil => intro i _; rfl
  | cons a rest ih =>
    intro i hm
    rw [List.mem_cons, not_or] at hm
    simp only [jsIndexOfAux]
    rw [if_neg fun e => hm.1 e.symm]
    exact ih (i + 1) hm.2

/-- `indexOf` finds the first occurrence right after a clean prefix. -/
lemma jsIndexOfAux_append (l : Str) (c : Char) (t : Str) :
    ∀ i, c ∉ l → jsIndexOfAux (l ++ c :: t) c i = (i : Int) + l.length := by
  induction l with
  | nil => intro i _; simp [jsIndexOfAux]
  | cons a rest ih =>
    intro i hm
    rw [List.mem_cons, not_or] at hm
    simp only [List.cons_append, jsIndexOfAux, List.append_eq]
    rw [if_neg fun e => hm.1 e.symm, ih (i + 1) hm.2]
    simp only [List.length_cons]
    push_cast
    ring

/-- `jsIndexOf` version of `jsIndexOfAux_not_mem`. -/
lemma jsIndexOf_not_mem (s : Str) (c : Char) (h : c ∉ s) : jsIndexOf s c = -1 :=
  jsIndexOfAux_not_mem s c 0 h

/-- `jsIndexOf` version of `jsIndexOfAux_append`. -/
lemma jsIndexOf_append (l : Str) (c : Char) (t : Str) (h : c ∉ l) :
    jsIndexOf (l ++ c :: t) c = (l.length : Int) := by
  rw [jsIndexOf, jsIndexOfAux_append l c t 0 h]
  simp

/-- Taking a prefix's length takes the prefix. -/
lemma take_len_append (l t : Str) : (l ++ t).take l.length = l := by
  simp

/-- Dropping a prefix's length leaves the suffix. -/
lemma drop_len_append (l t : Str) : (l ++ t).drop l.length = t := by
  simp

/-- Decomposition of `parseRiftUri` on an identifier with a path: host up to
the first `/`, path up to the first `?`, query from there, parameters split
from the decoded pairs. -/
lemma parseRiftUri_slash (h rest q : Str) (h1 : ('/' : Char) ∉ h)
    (h2 : ('?' : Char) ∉ rest) (hq : q ≠ []) :
    parseRiftUri ("rift://".toList ++ (h ++ ('/' :: (rest ++ '?' :: q)))) =
      some { host := h, path := '/' :: rest, query := '?' :: q,
             riftParams := (splitRiftParams (parseQueryPairs q)).1,
             appParams := (splitRiftParams (parseQueryPairs q)).2 } := by
  have hsw : startsWithL ("rift://".toList)
      ("rift://".toList ++ (h ++ ('/' :: (rest ++ '?' :: q)))) = true :=
    startsWithL_append _ _
  have hdrop : ("rift://".toList ++ (h ++ ('/' :: (rest ++ '?' :: q)))).drop 7 =
      h ++ ('/' :: (rest ++ '?' :: q)) := rfl
  have hidx : jsIndexOf (h ++ ('/' :: (rest ++ '?' :: q))) '/' = (h.length : Int) :=
    jsIndexOf_append h '/' (rest ++ '?' :: q) h1
  have hq2 : ('?' : Char) ∉ ('/' :: rest) := by
    rw [List.mem_cons, not_or]
    exact ⟨by decide, h2⟩
  have hidx2 : jsIndexOf ('/' :: (rest ++ '?' :: q)) '?' = ((rest.length + 1 : Nat) : Int) := by
    have := jsIndexOf_append ('/' :: rest) '?' q hq2
    simpa [Nat.add_comm] using this
  have hlen : ¬ ((h.length : Int) = -1) := by omega
  have hlen2 : ¬ (((rest.length + 1 : Nat) : Int) = -1) := by omega
  have hqlen : 1 < ('?' :: q).length := by
    have := List.length_pos.mpr hq
    simp only [List.length_cons]
    omega
  unfold parseRiftUri
  rw [hsw]
  rw [if_neg (by decide)]
  simp only [hdrop, hidx, if_neg hlen, Int.toNat_natCast, hidx2, if_neg hlen2,
    take_len_append, drop_len_append, List.take_succ_cons, List.drop_succ_cons]
  rw [if_pos hqlen]
  simp

/-- Claim C4 as amended (corrected): on an identifier with no `/` after the
host, `parse` returns `path = ""` and treats the first `?` in the remainder as
the start of the query — but the returned `host` field is the *entire*
remainder, query included (it is not trimmed at the `?`); the parameters after
the `?` are still split into namespaced and application parameters from the
decoded query pairs. -/
theorem parse_no_slash_host_untrimmed (h q : Str) (h1 : ('/' : Char) ∉ h)
    (h2 : ('?' : Char) ∉ h) (h3 : ('/' : Char) ∉ q) (hq : q ≠ []) :
    parseRiftUri ("rift://".toList ++ (h ++ '?' :: q)) =
      some { host := h ++ '?' :: q, path := [], query := '?' :: q,
             riftParams := (splitRiftParams (parseQueryPairs q)).1,
             appParams := (splitRiftParams (parseQueryPairs q)).2 } := by
  have hsw : startsWithL ("rift://".toList) ("rift://".toList ++ (h ++ '?' :: q)) = true :=
    startsWithL_append _ _
  have hdrop : ("rift://".toList ++ (h ++ '?' :: q)).drop 7 = h ++ '?' :: q := rfl
  have hnoslash : ('/' : Char) ∉ (h ++ '?' :: q) := by
    rw [List.mem_append, List.mem_cons, not_or, not_or]
    exact ⟨h1, by decide, h3⟩
  have hidx : jsIndexOf (h ++ '?' :: q) '/' = -1 := jsIndexOf_not_mem _ '/' hnoslash
  have hidx2 : jsIndexOf (h ++ '?' :: q) '?' = (h.length : Int) :=
    jsIndexOf_append h '?' q h2
  have hlen : ¬ ((h.length : Int) = -1) := by omega
  have hqlen : 1 < ('?' :: q).length := by
    have := List.length_pos.mpr hq
    simp only [List.length_cons]
    omega
  unfold parseRiftUri
  rw [hsw]
  rw [if_neg (by decide)]
  simp only [hdrop, hidx, eq_self_iff_true, if_true, hidx2, if_neg hlen,
    Int.toNat_natCast, drop_len_append]
  rw [if_pos hqlen]
  simp

/-!
## Claim theorems
-/

/-- Claim C10 (confirmed): `setConfig` merges a partial configuration
field-by-field — a field absent from the argument keeps its previous value, a
present field overrides it — and `getConfig` afterwards returns exactly the
merged configuration.  The four cases cover every subset of supplied fields. -/
theorem setConfig_partial_merge (cur : RiftConfig) (b : Bool) (hs : List Str) :
    getConfig (setConfig {} cur) = cur ∧
    getConfig (setConfig { useHttpForLocalDevelopment := some b } cur) =
      { useHttpForLocalDevelopment := b, localHosts := cur.localHosts } ∧
    getConfig (setConfig { localHosts := some hs } cur) =
      { useHttpForLocalDevelopment := cur.useHttpForLocalDevelopment, localHosts := hs } ∧
    getConfig (setConfig { useHttpForLocalDevelopment := some b, localHosts := some hs } cur) =
      { useHttpForLocalDevelopment := b, localHosts := hs } :=
  ⟨rfl, rfl, rfl, rfl⟩

/-- Claim C9 (confirmed): `scanNode` returns the empty sequence and invokes no
callback when no occurrence-reporting callback is configured or the node's
text content is falsy (absent or empty) — regardless of what the text would
have matched. -/
theorem scanNode_disabled_noop (cb : Bool) (tc : Option Str)
    (h : cb = false ∨ tc = none ∨ tc = some []) :
    scanNodeModel cb tc = ([], []) := by
  unfold scanNodeModel
  rw [if_pos h]

/-- Witness for C9: a text consisting of a valid identifier (the matcher does
find it) still yields no result and no callback when the callback option is
absent. -/
theorem scanNode_disabled_noop_witness :
    execAll ("rift://a.b?x=1".toList) ≠ [] ∧
      scanNodeModel false (some ("rift://a.b?x=1".toList)) = ([], []) :=
  ⟨by decide, scanNode_disabled_noop false (some ("rift://a.b?x=1".toList)) (Or.inl rfl)⟩

/-- Claim C6 (confirmed): `emit` invokes every currently-registered callback of
the channel in registration order — here each callback logs its tag, and the
final log extends the initial one by exactly the tags in subscription order —
even when some callbacks raise errors afterwards (the `raises` flags are
arbitrary and the errors are caught, so `emit` is a total function returning
the state); and `emit` on a channel with zero subscribers returns the state
unchanged. -/
theorem publish_order_fault_isolation_noop {α : Type} (ch : String) (data : α)
    (s : List (Nat × α)) (specs : List (Nat × Bool)) :
    emitterEmit (logRegistry ch specs) ch data s = s ++ specs.map (fun sp => (sp.1, data)) ∧
    emitterEmit ([] : EventHandlers α (List (Nat × α)) Unit) ch data s = s := by
  constructor
  · cases specs with
    | nil => simp [logRegistry, emitterEmit, lookupChannel]
    | cons sp rest =>
      unfold logRegistry
      simp only [List.foldl_cons]
      rw [show emitterOn ([] : EventHandlers α (List (Nat × α)) Unit) ch (logThen sp.1 sp.2) =
            [(ch, [logThen sp.1 sp.2])] by simp [emitterOn, lookupChannel]]
      rw [logRegistry_foldl_single]
      rw [show emitterEmit [(ch, [logThen sp.1 sp.2] ++ rest.map fun sp => logThen sp.1 sp.2)]
            ch data s =
          (((sp :: rest).map fun sp => logThen sp.1 sp.2).foldl
            (fun acc cb => (cb data acc).1) s) by
        simp [emitterEmit, lookupChannel, List.find?]]
      rw [logThen_foldl]
  · simp [emitterEmit, lookupChannel]

/-- Claim C8 (confirmed): an intent sent by `query`/`mutate` on a connected
bridge carries a payload whose `network` field is the wallet-asserted network
recorded from the context message — even when the caller's own options carry a
different `network` value, which is never transmitted. -/
theorem intent_network_wallet_asserted (addr net : String) (opts : CallOptions)
    (h : opts.network ≠ some net) :
    (queryStep opts (handleInbound (.context addr net) freshState)).1.sent =
      [(MsgBody.intent "query" opts.cadence opts.args (some net), 0)] ∧
    (mutateStep opts (handleInbound (.context addr net) freshState)).1.sent =
      [(MsgBody.intent "mutate" opts.cadence opts.args (some net), 0)] ∧
    some net ≠ opts.network :=
  ⟨rfl, rfl, fun hh => h hh.symm⟩

/-- Witness for C8: a caller options record smuggling `network = "caller-net"`
still results in the wallet's `"flow-mainnet"` being transmitted. -/
theorem intent_network_wallet_asserted_witness :
    (queryStep { cadence := "c", args := [], network := some "caller-net" }
        (handleInbound (.context "0xa" "flow-mainnet") freshState)).1.sent =
      [(MsgBody.intent "query" "c" [] (some "flow-mainnet"), 0)] ∧
    (mutateStep { cadence := "c", args := [], network := some "caller-net" }
        (handleInbound (.context "0xa" "flow-mainnet") freshState)).1.sent =
      [(MsgBody.intent "mutate" "c" [] (some "flow-mainnet"), 0)] ∧
    some "flow-mainnet" ≠ some "caller-net" :=
  intent_network_wallet_asserted "0xa" "flow-mainnet"
    { cadence := "c", args := [], network := some "caller-net" } (by decide)

/-- Claim C7 (confirmed): an in-flight `mutate` receiving a `mutateResult`
with status `success` and transaction id `t` resolves its promise with `t` and
emits `tx:success` carrying `t`; receiving status `error` rejects the promise
(a protocol-level rejection with the fixed failure message) and emits
`tx:error` carrying the transaction id. -/
theorem mutate_result_resolution (a n t : String) (opts : CallOptions) :
    (handleInbound (.mutateResult "success" t) (mutateStep opts (connState a n)).1).settled =
      [(0, Settlement.resolvedMutate (some t))] ∧
    (handleInbound (.mutateResult "success" t) (mutateStep opts (connState a n)).1).emitted =
      [("tx:submitted", Payload.null),
       ("rift:mutateResult", Payload.mutateResultMsg "success" t),
       ("tx:success", Payload.txSuccess (some t))] ∧
    (handleInbound (.mutateResult "error" t) (mutateStep opts (connState a n)).1).settled =
      [(0, Settlement.rejected (some "Transaction failed"))] ∧
    (handleInbound (.mutateResult "error" t) (mutateStep opts (connState a n)).1).emitted =
      [("tx:submitted", Payload.null),
       ("rift:mutateResult", Payload.mutateResultMsg "error" t),
       ("tx:error", Payload.txError (some t) "Transaction failed")] :=
  ⟨rfl, rfl, rfl, rfl⟩

/-- Counterexample for C3: two `connect()` calls made before the first has
resolved send one handshake each — the sent-message trace of the concrete run
contains two handshakes, refuting "exactly one handshake message is sent". -/
theorem single_handshake_refuted :
    countHandshakes (connectStep (connectStep freshState)).sent = 2 ∧
      countHandshakes (connectStep (connectStep freshState)).sent ≠ 1 := by
  decide

/-- Claim C3 as amended (corrected): each of the two unresolved `connect()`
calls sends its own handshake — two handshake messages in total — and when
the single counterpart context message arrives both callers' promises resolve
(and the bridge is connected). -/
theorem double_connect_two_handshakes_both_resolve (a n : String) :
    countHandshakes (connectStep (connectStep freshState)).sent = 2 ∧
    (handleInbound (.context a n) (connectStep (connectStep freshState))).settled =
      [(0, Settlement.resolvedConnect), (1, Settlement.resolvedConnect)] ∧
    (handleInbound (.context a n) (connectStep (connectStep freshState))).connected = true :=
  ⟨by decide, rfl, rfl⟩

/-- Counterexample for C1: after a pending `query` is resolved by its matching
response, the request's error-channel subscription is still registered — the
pending request is not fully destroyed, refuting "both of its event-channel
subscriptions are removed". -/
theorem pending_request_full_teardown_refuted :
    lookupH (handleInbound (.queryResult "42")
        (queryStep { cadence := "c", args := [] } (connState "0xa" "flow")).1).handlers
      "rift:error" = some [Handler.queryError 0] ∧
    some [Handler.queryError 0] ≠ some ([] : List Handler) := by
  decide

/-- Claim C1 as amended (corrected): when the first of {matching response,
matching error, timeout} occurs for a pending `query` or `mutate`, the
continuation is invoked exactly once and the timeout timer is cleared (or has
fired), but only the subscription on the channel that fired is removed: on a
response (for `mutate`, of either status) the error-channel subscription
stays registered, on an error message the result-channel subscription stays
registered, and on timeout both subscriptions stay registered. -/
theorem pending_request_first_event_teardown (a n r c m t : String) (opts : CallOptions) :
    (handleInbound (.queryResult r) (queryStep opts (connState a n)).1).settled =
      [(0, Settlement.resolvedQuery (some r))] ∧
    (handleInbound (.queryResult r) (queryStep opts (connState a n)).1).timers = [] ∧
    (handleInbound (.queryResult r) (queryStep opts (connState a n)).1).handlers =
      [("rift:queryResult", []), ("rift:error", [Handler.queryError 0])] ∧
    (handleInbound (.error c m) (queryStep opts (connState a n)).1).settled =
      [(0, Settlement.rejected (some m))] ∧
    (handleInbound (.error c m) (queryStep opts (connState a n)).1).timers = [] ∧
    (handleInbound (.error c m) (queryStep opts (connState a n)).1).handlers =
      [("rift:queryResult", [Handler.queryResult 0]), ("rift:error", [])] ∧
    (fireTimeout 0 (queryStep opts (connState a n)).1).settled =
      [(0, Settlement.rejected (some "Script execution timed out"))] ∧
    (fireTimeout 0 (queryStep opts (connState a n)).1).timers = [] ∧
    (fireTimeout 0 (queryStep opts (connState a n)).1).handlers =
      [("rift:queryResult", [Handler.queryResult 0]), ("rift:error", [Handler.queryError 0])] ∧
    (handleInbound (.mutateResult "success" t) (mutateStep opts (connState a n)).1).settled =
      [(0, Settlement.resolvedMutate (some t))] ∧
    (handleInbound (.mutateResult "success" t) (mutateStep opts (connState a n)).1).timers = [] ∧
    (handleInbound (.mutateResult "success" t) (mutateStep opts (connState a n)).1).handlers =
      [("rift:mutateResult", []), ("rift:error", [Handler.mutateError 0])] ∧
    (handleInbound (.mutateResult "error" t) (mutateStep opts (connState a n)).1).settled =
      [(0, Settlement.rejected (some "Transaction failed"))] ∧
    (handleInbound (.mutateResult "error" t) (mutateStep opts (connState a n)).1).timers = [] ∧
    (handleInbound (.mutateResult "error" t) (mutateStep opts (connState a n)).1).handlers =
      [("rift:mutateResult", []), ("rift:error", [Handler.mutateError 0])] ∧
    (handleInbound (.error c m) (mutateStep opts (connState a n)).1).settled =
      [(0, Settlement.rejected (some m))] ∧
    (handleInbound (.error c m) (mutateStep opts (connState a n)).1).timers = [] ∧
    (handleInbound (.error c m) (mutateStep opts (connState a n)).1).handlers =
      [("rift:mutateResult", [Handler.mutateResult 0]), ("rift:error", [])] ∧
    (fireTimeout 0 (mutateStep opts (connState a n)).1).settled =
      [(0, Settlement.rejected (some "Transaction timed out"))] ∧
    (fireTimeout 0 (mutateStep opts (connState a n)).1).timers = [] ∧
    (fireTimeout 0 (mutateStep opts (connState a n)).1).handlers =
      [("rift:mutateResult", [Handler.mutateResult 0]), ("rift:error", [Handler.mutateError 0])] :=
  ⟨rfl, rfl, rfl, rfl, rfl, rfl, rfl, rfl, rfl, rfl, rfl, rfl, rfl, rfl, rfl, rfl, rfl, rfl,
   rfl, rfl, rfl⟩

/-- Counterexample for C5: on a text node with two identifier occurrences, the
scan's action trace interleaves discovery and reporting — a callback is
invoked before the second match is discovered — refuting "only after all
matches of the node are collected does it invoke the reporting callback". -/
theorem collect_before_report_refuted :
    collectThenReport (scanTextNodeStep ("rift://a.b rift://c.d".toList) []).1 = false ∧
    (scanTextNodeStep ("rift://a.b rift://c.d".toList) []).1 =
      [.found ("rift://a.b".toList) 0 10, .callback ("rift://a.b".toList) 0 10,
       .found ("rift://c.d".toList) 11 21, .callback ("rift://c.d".toList) 11 21] := by
  decide

/-- Claim C5 as amended (corrected): the matches of a node are discovered in a
single forward pass over a snapshot of its text, and the reporting callback is
invoked once per match immediately upon discovery (interleaved with the pass),
not after the full list is collected: `scanNode`'s trace is exactly a
found/callback pair per match of the text, in order, and its returned list is
the ordered match texts. -/
theorem scan_callback_interleaved (tc : Str) (h : tc ≠ []) :
    scanNodeModel true (some tc) =
      ((execAll tc).map (fun t => t.1),
       (execAll tc).flatMap
         (fun t => [ScanAction.found t.1 t.2.1 t.2.2, ScanAction.callback t.1 t.2.1 t.2.2])) := by
  unfold scanNodeModel
  rw [if_neg (by simp [h])]
  simpa using scanNodeLoop_spec (execAll tc)

/-- Witness for C5's amended theorem at a two-occurrence text. -/
theorem scan_callback_interleaved_witness :
    scanNodeModel true (some ("rift://a.b rift://c.d".toList)) =
      ((execAll ("rift://a.b rift://c.d".toList)).map (fun t => t.1),
       (execAll ("rift://a.b rift://c.d".toList)).flatMap
         (fun t => [ScanAction.found t.1 t.2.1 t.2.2, ScanAction.callback t.1 t.2.1 t.2.2])) :=
  scan_callback_interleaved ("rift://a.b rift://c.d".toList) (by decide)

/-- Counterexample for C4: parsing `rift://example.com?x=1` returns a host
field equal to `example.com?x=1` — the whole remainder — not the substring
`example.com` before the `?` that the claim asserts. -/
theorem host_trimmed_at_query_refuted :
    (parseRiftUri ("rift://example.com?x=1".toList)).map ParsedRiftUri.host =
      some ("example.com?x=1".toList) ∧
    some ("example.com?x=1".toList) ≠ some ("example.com".toList) := by
  decide

/-- Witness for C4's amended theorem: `rift://example.com?x=1` parses to the
untrimmed host, empty path, query from the `?`, and the application parameter
`x=1`. -/
theorem parse_no_slash_host_untrimmed_witness :
    parseRiftUri ("rift://example.com?x=1".toList) =
      some { host := "example.com?x=1".toList, path := [], query := "?x=1".toList,
             riftParams := [], appParams := [("x".toList, "1".toList)] } :=
  parse_no_slash_host_untrimmed ("example.com".toList) ("x=1".toList)
    (by decide) (by decide) (by decide) (by decide)

/-- Claim C2 (confirmed): for an identifier `rift://host/path?query` whose
query mixes the namespaced parameter `rift-height=tall` with the application
parameter `x=1`, parsing and re-deriving an address yields
`https://host/path?x=1` under the default (non-local) configuration — the
namespaced parameter is stripped and never re-emitted, the application
parameter is retained. -/
theorem parse_then_address_strips_namespaced (h rest : Str)
    (h1 : ('/' : Char) ∉ h) (h2 : ('?' : Char) ∉ rest) :
    convertRiftUrl defaultConfig
        ("rift://".toList ++ (h ++ ('/' :: (rest ++ '?' :: "rift-height=tall&x=1".toList)))) =
      "https://".toList ++ (h ++ ('/' :: (rest ++ '?' :: "x=1".toList))) := by
  have hp := parseRiftUri_slash h rest ("rift-height=tall&x=1".toList) h1 h2 (by decide)
  have hsw := startsWithL_append ("rift://".toList)
    (h ++ ('/' :: (rest ++ '?' :: "rift-height=tall&x=1".toList)))
  have happ : splitRiftParams (parseQueryPairs ("rift-height=tall&x=1".toList)) =
      ([("height".toList, "tall".toList)], [("x".toList, "1".toList)]) := by decide
  have hpp : getProtocolPrefix defaultConfig h = "https://".toList := by
    simp [getProtocolPrefix, defaultConfig]
  have henc : encodePairs [("x".toList, "1".toList)] = "x=1".toList := by decide
  unfold convertRiftUrl
  rw [hsw, if_neg (by decide), hp]
  simp only [happ, hpp, henc]
  simp [List.append_assoc]

/-- Witness for C2 at the spec's concrete identifier. -/
theorem parse_then_address_strips_namespaced_witness :
    convertRiftUrl defaultConfig ("rift://host/path?rift-height=tall&x=1".toList) =
      "https://host/path?x=1".toList :=
  parse_then_address_strips_namespaced ("host".toList) ("path".toList)
    (by decide) (by decide)
